import Mathlib

/-!
Verification of the instancing / deformation / actor-following subsystem of the
chilled-portfolio repository.

The development shallowly embeds the relevant JavaScript code:

* the instance data loader (`fetchBinaryData` in the plane-instancer component),
* the vertex-stage bend displacement and the fragment-stage noise/turbulence
  of the deformation shader (GLSL injected via `onBeforeCompile`),
* the ground-following actor (`MovingSphere`: its `handlePointerMove` input
  handler and its per-frame `useFrame` update), and
* the renderer instance-count fallback (`safeCount`).

Numbers are modelled exactly: loader and noise arithmetic over `ℚ`
(JavaScript doubles idealised as exact rationals), vector/shader geometry over
`ℝ` (GLSL `distance` / `normalize` need square roots).  A JavaScript value
that can be `NaN` (an arithmetic result of an out-of-range typed-array read,
which yields `undefined`) is modelled as `Option ℚ` with `none` for `NaN`.
-/

namespace Portfolio

/-! ## Instance data loader

Embeds `fetchBinaryData` of the plane-instancer component (source constants:
`REDUCED_INSTANCE_COUNT = 400000`, `TEXTURE_COUNT = 4`, `NEEDS_NORMALIZE =
false`).  The four binary buffers are modelled as `List ℚ` of already-decoded
32-bit floats; `Math.random()` draws are passed in as an explicit stream
`rand : ℕ → ℕ → ℚ` (instance index, draw slot), each draw lying in `[0, 1)`.
-/

namespace Instancer

/-- Source constant `REDUCED_INSTANCE_COUNT` — the configured instance budget. -/
def REDUCED_INSTANCE_COUNT : ℕ := 400000

/-- Source constant `TEXTURE_COUNT` — the atlas size. -/
def TEXTURE_COUNT : ℕ := 4

/-- Source: `const inferredCount = Math.floor(positions.length / 3)`. -/
def inferredCount (positionsLen : ℕ) : ℕ := positionsLen / 3

/-- Source: `let maxCount = Math.min(inferredCount, REDUCED_INSTANCE_COUNT)`. -/
def maxCount (positionsLen : ℕ) : ℕ :=
  min (inferredCount positionsLen) REDUCED_INSTANCE_COUNT

/-- Source: `const useSmartSampling = inferredCount > REDUCED_INSTANCE_COUNT`. -/
def useSmartSampling (positionsLen : ℕ) : Bool :=
  REDUCED_INSTANCE_COUNT < inferredCount positionsLen

/-- Source: `const count = instanceCount ? Math.min(instanceCount, maxCount) :
maxCount`.  The `instanceCount` prop is optional (`Option ℕ`); JavaScript
truthiness makes `instanceCount = 0` take the `maxCount` branch. -/
def count (positionsLen : ℕ) (instanceCount : Option ℕ) : ℕ :=
  match instanceCount with
  | some n => if n = 0 then maxCount positionsLen else min n (maxCount positionsLen)
  | none => maxCount positionsLen

/-- Source, inside the loop: `let sourceIndex = i; if (useSmartSampling)
sourceIndex = Math.floor((i / count) * inferredCount)`. -/
def sourceIndex (positionsLen : ℕ) (instanceCount : Option ℕ) (i : ℕ) : ℕ :=
  if useSmartSampling positionsLen then
    Nat.floor ((i : ℚ) / (count positionsLen instanceCount) * (inferredCount positionsLen))
  else i

/-- One entry of `transformArray`.  Rotation components carry `Option ℚ`
because the source reads `rotations[i3]` without a `?? 0` guard: an
out-of-range read gives `undefined`, and `undefined + jitter` is `NaN`
(modelled `none`). -/
structure Transform where
  position : ℚ × ℚ × ℚ
  rotation : Option ℚ × Option ℚ × Option ℚ
  scale : ℚ × ℚ × ℚ
deriving DecidableEq

/-- Source, loop body building `transformArray[i]`:
`position: [positions[sourceI3] ?? 0, …]`,
`rotation: [rotations[i3] + 0.5 * Math.random(), rotations[i3 + 1] *
Math.random(), rotations[i3 + 2] - 1 + 0.5 * Math.random()]`,
`scale: [(scales[sourceI3] ?? 1) * (0.8 + Math.random() * 0.4),
(scales[sourceI3 + 1] ?? 1) * (0.9 + Math.random() * 0.2),
(scales[sourceI3 + 2] ?? 1) * (0.8 + Math.random() * 0.4)]`.
`r 0 .. r 5` are the six `Math.random()` draws of this entry in source order. -/
def transformAt (positions rotations scales : List ℚ) (r : ℕ → ℚ)
    (sourceI3 i3 : ℕ) : Transform where
  position :=
    ((positions.get? sourceI3).getD 0,
     (positions.get? (sourceI3 + 1)).getD 0,
     (positions.get? (sourceI3 + 2)).getD 0)
  rotation :=
    ((rotations.get? i3).map (fun x => x + 1/2 * r 0),
     (rotations.get? (i3 + 1)).map (fun x => x * r 1),
     (rotations.get? (i3 + 2)).map (fun x => x - 1 + 1/2 * r 2))
  scale :=
    (((scales.get? sourceI3).getD 1) * (4/5 + r 3 * (2/5)),
     ((scales.get? (sourceI3 + 1)).getD 1) * (9/10 + r 4 * (1/5)),
     ((scales.get? (sourceI3 + 2)).getD 1) * (4/5 + r 5 * (2/5)))

/-- Source: `Math.max(0, Math.min(1, x))` used for each colour channel. -/
def clamp01 (x : ℚ) : ℚ := max 0 (min 1 x)

/-- Source, loop body building the colour entry: `let r = (colors[sourceI3] ??
0); …` (the `NEEDS_NORMALIZE` division is dead code, the flag is `false`),
then `r = Math.max(0, Math.min(1, r + (Math.random() - 0.5) * colorVar))`
with `colorVar = 0.1`.  Draw slots `r 6 .. r 8`. -/
def colorAt (colors : List ℚ) (r : ℕ → ℚ) (sourceI3 : ℕ) : ℚ × ℚ × ℚ :=
  (clamp01 ((colors.get? sourceI3).getD 0 + (r 6 - 1/2) * (1/10)),
   clamp01 ((colors.get? (sourceI3 + 1)).getD 0 + (r 7 - 1/2) * (1/10)),
   clamp01 ((colors.get? (sourceI3 + 2)).getD 0 + (r 8 - 1/2) * (1/10)))

/-- Source: `texIdxArr[i] = Math.floor(Math.random() * TEXTURE_COUNT)`
(draw slot `r 9`). -/
def texIdxAt (r : ℕ → ℚ) : ℤ := ⌊r 9 * (TEXTURE_COUNT : ℚ)⌋

/-- Source, the whole `for (let i = 0; i < count; i++)` loop producing
`transformArray` (with `const sourceI3 = sourceIndex * 3; const i3 = i * 3`). -/
def transformArray (positions rotations scales : List ℚ)
    (instanceCount : Option ℕ) (rand : ℕ → ℕ → ℚ) : List Transform :=
  (List.range (count positions.length instanceCount)).map fun i =>
    transformAt positions rotations scales (rand i)
      (3 * sourceIndex positions.length instanceCount i) (3 * i)

/-- Source, the same loop producing the flattened `instColors` entries
(kept per-instance as triples). -/
def instColors (positions colors : List ℚ) (instanceCount : Option ℕ)
    (rand : ℕ → ℕ → ℚ) : List (ℚ × ℚ × ℚ) :=
  (List.range (count positions.length instanceCount)).map fun i =>
    colorAt colors (rand i) (3 * sourceIndex positions.length instanceCount i)

/-- Load failure token (any rejected fetch or parse error of the four
buffers). -/
inductive LoadError
  | fetchFailed
deriving DecidableEq

/-- Source, the load effect: `fetchBinaryData().then(… setTransforms …)
.catch(console.error)` — on success the transforms state is populated, on
failure the error is only logged and the state stays `null`. -/
def loadResult : Except LoadError (List Transform) → Option (List Transform)
  | .ok ts => some ts
  | .error _ => none

/-- Source: `const safeCount = transforms ? transforms.length :
(instanceCount || 0)` — the instance count handed to the `instancedMesh`. -/
def safeCount (transforms : Option (List Transform))
    (instanceCount : Option ℕ) : ℕ :=
  match transforms with
  | some ts => ts.length
  | none => instanceCount.getD 0

/-- Spec-side target of the amended claim C2: smart sampling is keyed on the
source count exceeding the budget (not on it exceeding the effective count). -/
def specSourceIndexAmended (positionsLen : ℕ) (instanceCount : Option ℕ) (i : ℕ) : ℕ :=
  if REDUCED_INSTANCE_COUNT < inferredCount positionsLen then
    Nat.floor ((i : ℚ) / (count positionsLen instanceCount) * (inferredCount positionsLen))
  else i

/-- Spec formula for claim C1: `effectiveCount = min(override ?? budget,
sourceCount, budget)` (written from the words of the spec, to be compared
with the code-side `count`). -/
def specEffectiveCount (sourceCount : ℕ) (override : Option ℕ) (budget : ℕ) : ℕ :=
  min (override.getD budget) (min sourceCount budget)

/-- Claim C1 exactly as stated: the equality holds for every value of the
override, including absent and including `override = 0`. -/
def specEffectiveCountClaim : Prop :=
  ∀ (positionsLen : ℕ) (override : Option ℕ),
    count positionsLen override =
      specEffectiveCount (inferredCount positionsLen) override REDUCED_INSTANCE_COUNT

/-- Claim C2 exactly as stated: whenever `sourceCount > effectiveCount`, every
output index is read at `floor(i / effectiveCount * sourceCount)`. -/
def specSubsamplingClaim : Prop :=
  ∀ (positionsLen i : ℕ) (instanceCount : Option ℕ),
    count positionsLen instanceCount < inferredCount positionsLen →
    i < count positionsLen instanceCount →
    sourceIndex positionsLen instanceCount i =
      Nat.floor ((i : ℚ) / (count positionsLen instanceCount) * (inferredCount positionsLen))

/-- Claim C4 exactly as stated: after a failed load the pool is empty and the
draw uses instance count `0` for every configuration, override included. -/
def specFailureDrawClaim : Prop :=
  ∀ (e : LoadError) (instanceCount : Option ℕ),
    loadResult (.error e) = none ∧
    safeCount (loadResult (.error e)) instanceCount = 0

/-- Spec default for a missing rotation component per claim C8: neutral `0`,
then the jitter of the corresponding rotation slot. -/
def specNeutralRotationX (r : ℕ → ℚ) : Option ℚ := some (0 + 1/2 * r 0)

end Instancer

end Portfolio

namespace Portfolio

open Instancer

/-- C1 (counterexample).  With `positions.length = 15` (so `sourceCount = 5`)
and the override present but equal to `0`, the code computes `count = 5`
(JavaScript truthiness sends `instanceCount = 0` to the no-override branch),
while the spec formula `min(override ?? budget, sourceCount, budget)` gives
`0`; the claimed equality for every override value is therefore false. -/
theorem C1_counterexample : ¬ specEffectiveCountClaim := by
  intro h
  have h15 := h 15 (some 0)
  have hcode : count 15 (some 0) = 5 := by decide
  have hspec : specEffectiveCount (inferredCount 15) (some 0) REDUCED_INSTANCE_COUNT = 0 := by
    decide
  rw [hcode, hspec] at h15
  exact absurd h15 (by decide)

/-- C1 (amended).  The effective instance count of the loader equals
`min(override ?? budget, sourceCount, budget)` whenever the override is
absent or nonzero; an override of `0` is falsy in JavaScript and is treated
exactly like an absent override, yielding `min(sourceCount, budget)`. -/
theorem C1_effective_count (positionsLen n : ℕ) :
    count positionsLen none =
      specEffectiveCount (inferredCount positionsLen) none REDUCED_INSTANCE_COUNT
    ∧ count positionsLen (some (n + 1)) =
      specEffectiveCount (inferredCount positionsLen) (some (n + 1)) REDUCED_INSTANCE_COUNT
    ∧ count positionsLen (some 0) =
      min (inferredCount positionsLen) REDUCED_INSTANCE_COUNT := by
  refine ⟨?_, ?_, ?_⟩
  · simp [count, specEffectiveCount, maxCount]
  · simp [count, specEffectiveCount, maxCount]
  · simp [count, maxCount]

/-- Helper: an out-of-range optional list read defaults. -/
theorem getD_eq_of_len_le {l : List ℚ} {n : ℕ} (d : ℚ) (h : l.length ≤ n) :
    l[n]?.getD d = d := by
  rw [List.getElem?_eq_none h]
  rfl

/-- Helper: an out-of-range optional list read maps to nothing. -/
theorem map_get_eq_none_of_len_le {l : List ℚ} {n : ℕ} (f : ℚ → ℚ) (h : l.length ≤ n) :
    l[n]?.map f = none := by
  rw [List.getElem?_eq_none h]
  rfl

/-- Helper: in the smart-sampling branch the exact-rational floor agrees with
natural division. -/
theorem sourceIndex_eq_div (positionsLen : ℕ) (instanceCount : Option ℕ) (i : ℕ)
    (h : useSmartSampling positionsLen = true) :
    sourceIndex positionsLen instanceCount i =
      i * inferredCount positionsLen / count positionsLen instanceCount := by
  rw [sourceIndex, if_pos h, div_mul_eq_mul_div, ← Nat.cast_mul,
    Nat.floor_div_nat, Nat.floor_natCast]

/-- C2 (counterexample).  Take `positions.length = 12` (so `sourceCount = 4`)
and an override of `2`: then `effectiveCount = 2 < 4 = sourceCount`, but the
code only enables smart sampling when `sourceCount > REDUCED_INSTANCE_COUNT`,
so output index `1` reads source index `1` (truncation) while the claim
demands `floor(1 / 2 * 4) = 2`. -/
theorem C2_counterexample : ¬ specSubsamplingClaim := by
  intro h
  have h1 := h 12 1 (some 2) (by decide) (by decide)
  have hsi : sourceIndex 12 (some 2) 1 = 1 := by decide
  have hc : count 12 (some 2) = 2 := by decide
  have hic : inferredCount 12 = 4 := by decide
  rw [hsi, hc, hic] at h1
  norm_num at h1

/-- C2 (amended).  The evenly spaced subsample `sourceIndex =
floor(i / effectiveCount * sourceCount)` is applied exactly when
`sourceCount > REDUCED_INSTANCE_COUNT` (the budget), not whenever
`sourceCount > effectiveCount`; in that regime every sampled index stays
inside the source range; and each output record is built by `transformAt`
with position/scale (and colour, see `instColors`) read at
`3 * sourceIndex` while rotation triples are always read at the output
index `3 * i`. -/
theorem C2_sampling (positionsLen i : ℕ) (instanceCount : Option ℕ)
    (positions rotations scales : List ℚ) (rand : ℕ → ℕ → ℚ) :
    sourceIndex positionsLen instanceCount i =
      specSourceIndexAmended positionsLen instanceCount i
    ∧ (useSmartSampling positionsLen = true →
        i < count positionsLen instanceCount →
        sourceIndex positionsLen instanceCount i < inferredCount positionsLen)
    ∧ (i < count positions.length instanceCount →
        (transformArray positions rotations scales instanceCount rand).get? i =
          some (transformAt positions rotations scales (rand i)
            (3 * sourceIndex positions.length instanceCount i) (3 * i))) := by
  refine ⟨?_, ?_, ?_⟩
  · simp [sourceIndex, specSourceIndexAmended, useSmartSampling]
  · intro hs hi
    have hc : 0 < count positionsLen instanceCount := Nat.lt_of_le_of_lt (Nat.zero_le i) hi
    have hsrc : 0 < inferredCount positionsLen := by
      have := of_decide_eq_true hs
      omega
    rw [sourceIndex_eq_div _ _ _ hs]
    rw [Nat.div_lt_iff_lt_mul hc]
    calc i * inferredCount positionsLen
        < count positionsLen instanceCount * inferredCount positionsLen :=
          mul_lt_mul_of_pos_right hi hsrc
      _ = inferredCount positionsLen * count positionsLen instanceCount := Nat.mul_comm _ _
  · intro hi
    rw [List.get?_eq_getElem?, transformArray, List.getElem?_map, List.getElem?_range hi]
    rfl

/-- C2 (witness). -/
theorem C2_sampling_witness :
    sourceIndex 1200003 none 399999 < inferredCount 1200003
    ∧ (transformArray [1, 2, 3] [] [] none (fun _ _ => 0)).get? 0 =
        some (transformAt [1, 2, 3] [] [] ((fun _ _ => (0 : ℚ)) 0)
          (3 * sourceIndex ([1, 2, 3] : List ℚ).length none 0) (3 * 0)) :=
  ⟨(C2_sampling 1200003 399999 none [] [] [] (fun _ _ => 0)).2.1 (by decide) (by decide),
   (C2_sampling 3 0 none [1, 2, 3] [] [] (fun _ _ => 0)).2.2 (by decide)⟩

/-- C4 (counterexample).  When the load fails and an override of `5` was
provided, `safeCount` is `5`, not `0`: the renderer issues a draw with
instance count `5` (the uninitialised placeholder mesh size), so the claim
that every configuration degrades to a zero-instance draw is false. -/
theorem C4_counterexample : ¬ specFailureDrawClaim := by
  intro h
  have h5 := (h .fetchFailed (some 5)).2
  simp [loadResult, safeCount] at h5

/-- C4 (amended).  A failed fetch/parse leaves the transforms state absent
(the pool stays empty), and the draw count falls back to the override when
one was provided and to `0` otherwise; only override-free configurations are
guaranteed to draw nothing. -/
theorem C4_failure_fallback (e : LoadError) (instanceCount : Option ℕ) :
    loadResult (.error e) = none
    ∧ safeCount (loadResult (.error e)) instanceCount = instanceCount.getD 0
    ∧ safeCount (loadResult (.error e)) none = 0 := by
  refine ⟨rfl, ?_, rfl⟩
  cases instanceCount <;> rfl

/-- C8 (counterexample).  With one source position record and an empty
rotations buffer, the produced rotation component is `NaN` (`none`): the
read `rotations[0]` yields `undefined` and `undefined + 0.5 * rand` is
`NaN`, not the claimed neutral default `0` (which, jittered, would be
`some (0 + 0.5 * rand)`). -/
theorem C8_counterexample :
    ((transformArray [1, 2, 3] [] [] none (fun _ _ => 0)).map fun t => t.rotation.1) = [none]
    ∧ [(none : Option ℚ)] ≠ [specNeutralRotationX (fun _ => 0)] := by
  constructor
  · decide
  · simp [specNeutralRotationX]

/-- C8 (amended).  The loader never aborts — it always yields exactly
`count` transform records and `count` colour triples — and missing source
reads default per field: position components to `0`, scale components to the
neutral `1` (then jittered), colour channels to `0` (then jittered and
clamped); missing rotation components however produce `NaN` (`none`), not
`0`, because the rotation reads carry no `?? 0` guard. -/
theorem C8_neutral_defaults (positions rotations scales colors : List ℚ)
    (instanceCount : Option ℕ) (rand : ℕ → ℕ → ℚ) (r : ℕ → ℚ) (sourceI3 i3 : ℕ) :
    (transformArray positions rotations scales instanceCount rand).length =
      count positions.length instanceCount
    ∧ (instColors positions colors instanceCount rand).length =
      count positions.length instanceCount
    ∧ (positions.length ≤ sourceI3 →
        (transformAt positions rotations scales r sourceI3 i3).position.1 = 0)
    ∧ (positions.length ≤ sourceI3 + 1 →
        (transformAt positions rotations scales r sourceI3 i3).position.2.1 = 0)
    ∧ (positions.length ≤ sourceI3 + 2 →
        (transformAt positions rotations scales r sourceI3 i3).position.2.2 = 0)
    ∧ (scales.length ≤ sourceI3 →
        (transformAt positions rotations scales r sourceI3 i3).scale.1 =
          1 * (4/5 + r 3 * (2/5)))
    ∧ (scales.length ≤ sourceI3 + 1 →
        (transformAt positions rotations scales r sourceI3 i3).scale.2.1 =
          1 * (9/10 + r 4 * (1/5)))
    ∧ (scales.length ≤ sourceI3 + 2 →
        (transformAt positions rotations scales r sourceI3 i3).scale.2.2 =
          1 * (4/5 + r 5 * (2/5)))
    ∧ (colors.length ≤ sourceI3 →
        (colorAt colors r sourceI3).1 = clamp01 (0 + (r 6 - 1/2) * (1/10)))
    ∧ (colors.length ≤ sourceI3 + 1 →
        (colorAt colors r sourceI3).2.1 = clamp01 (0 + (r 7 - 1/2) * (1/10)))
    ∧ (colors.length ≤ sourceI3 + 2 →
        (colorAt colors r sourceI3).2.2 = clamp01 (0 + (r 8 - 1/2) * (1/10)))
    ∧ (rotations.length ≤ i3 →
        (transformAt positions rotations scales r sourceI3 i3).rotation.1 = none)
    ∧ (rotations.length ≤ i3 + 1 →
        (transformAt positions rotations scales r sourceI3 i3).rotation.2.1 = none)
    ∧ (rotations.length ≤ i3 + 2 →
        (transformAt positions rotations scales r sourceI3 i3).rotation.2.2 = none) := by
  refine ⟨?_, ?_, ?_, ?_, ?_, ?_, ?_, ?_, ?_, ?_, ?_, ?_, ?_, ?_⟩
  · simp [transformArray]
  · simp [instColors]
  all_goals intro h
  all_goals simp [transformAt, colorAt, getD_eq_of_len_le _ h,
    map_get_eq_none_of_len_le _ h]

/-- C8 (witness). -/
theorem C8_neutral_defaults_witness :
    (transformAt [1, 2, 3] [] [] (fun _ => 0) 3 0).position.1 = 0
    ∧ (transformAt [1, 2, 3] [] [] (fun _ => 0) 3 0).scale.1 =
        1 * (4/5 + (fun _ => (0 : ℚ)) 3 * (2/5))
    ∧ (colorAt [] (fun _ => 0) 3).1 =
        clamp01 (0 + ((fun _ => (0 : ℚ)) 6 - 1/2) * (1/10))
    ∧ (transformAt [1, 2, 3] [] [] (fun _ => 0) 3 0).rotation.1 = none :=
  ⟨(C8_neutral_defaults [1, 2, 3] [] [] [] none (fun _ _ => 0) (fun _ => 0) 3 0).2.2.1
      (by decide),
   (C8_neutral_defaults [1, 2, 3] [] [] [] none (fun _ _ => 0) (fun _ => 0) 3 0).2.2.2.2.2.1
      (by decide),
   (C8_neutral_defaults [1, 2, 3] [] [] [] none (fun _ _ => 0) (fun _ => 0) 3 0).2.2.2.2.2.2.2.2.1
      (by decide),
   (C8_neutral_defaults [1, 2, 3] [] [] [] none (fun _ _ => 0) (fun _ => 0) 3 0).2.2.2.2.2.2.2.2.2.2.2.1
      (by decide)⟩

end Portfolio

namespace Portfolio

/-! ## Fragment-stage noise (`NOISE_SHADER`)

Embeds the GLSL helpers `fastHash`, `fastNoise` and `turbulence` over exact
rationals.  GLSL `fract x = x - floor x` is `Int.fract`, and GLSL
`mix(x, y, a) = x * (1 - a) + y * a`. -/

namespace NoiseShader

/-- Source GLSL: `float fastHash(float n) { n = fract(n * 0.1031);
n *= n + 33.33; n *= n + n; return fract(n); }`. -/
def fastHash (n : ℚ) : ℚ :=
  let n1 := Int.fract (n * (1031/10000))
  let n2 := n1 * (n1 + 3333/100)
  let n3 := n2 * (n2 + n2)
  Int.fract n3

/-- Source GLSL, the quintic interpolation applied to one component of `f`:
`f * f * f * (f * (f * 6.0 - 15.0) + 10.0)`. -/
def fade (f : ℚ) : ℚ := f * f * f * (f * (f * 6 - 15) + 10)

/-- GLSL builtin `mix(x, y, a) = x * (1 - a) + y * a`. -/
def glslMix (x y a : ℚ) : ℚ := x * (1 - a) + y * a

/-- Source GLSL `fastNoise`: integer lattice cell `i = floor(p)`, quintic-faded
fractional part, a single hash seed `n = i.x + i.y * 157.0`, and a bilinear
mix of the four corner hashes. -/
def fastNoise (p : ℚ × ℚ) : ℚ :=
  let ix : ℚ := (⌊p.1⌋ : ℤ)
  let iy : ℚ := (⌊p.2⌋ : ℤ)
  let fx := fade (Int.fract p.1)
  let fy := fade (Int.fract p.2)
  let n := ix + iy * 157
  glslMix (glslMix (fastHash n) (fastHash (n + 1)) fx)
    (glslMix (fastHash (n + 157)) (fastHash (n + 158)) fx) fy

/-- Source GLSL, inside `turbulence`: `vec2 shift = vec2(time * 0.3,
time * 0.4)`. -/
def shift (time : ℚ) : ℚ × ℚ := (time * (3/10), time * (2/5))

/-- Source GLSL `turbulence`: `t += fastNoise(p + shift) * amp` with
`amp = 0.5`, then `p *= 2.0; amp *= 0.5; t += fastNoise(p - shift * 0.5) *
amp`. -/
def turbulence (p : ℚ × ℚ) (time : ℚ) : ℚ :=
  fastNoise (p.1 + (shift time).1, p.2 + (shift time).2) * (1/2)
  + fastNoise (p.1 * 2 - (shift time).1 * (1/2), p.2 * 2 - (shift time).2 * (1/2)) * (1/4)

end NoiseShader

open NoiseShader

/-- Helper: the hash always lands in `[0, 1)` because it ends in `fract`. -/
theorem fastHash_mem (n : ℚ) : 0 ≤ fastHash n ∧ fastHash n < 1 :=
  ⟨Int.fract_nonneg _, Int.fract_lt_one _⟩

/-- Helper: the quintic fade keeps `[0, 1]` inside `[0, 1]`. -/
theorem fade_mem {x : ℚ} (h0 : 0 ≤ x) (h1 : x ≤ 1) : 0 ≤ fade x ∧ fade x ≤ 1 := by
  constructor
  · have hq : 0 ≤ x * (x * 6 - 15) + 10 := by nlinarith [sq_nonneg (4 * x - 5)]
    have := mul_nonneg (mul_nonneg (mul_nonneg h0 h0) h0) hq
    simpa [fade, mul_assoc] using this
  · have key : fade x = 1 - (1 - x) * (1 - x) * (1 - x) * (x * (x * 6 + 3) + 1) := by
      unfold fade
      ring
    have hc : 0 ≤ 1 - x := by linarith
    have hq : 0 ≤ x * (x * 6 + 3) + 1 := by nlinarith
    nlinarith [mul_nonneg (mul_nonneg (mul_nonneg hc hc) hc) hq]

/-- Helper: a GLSL mix of two values of `[0, 1)` with a weight in `[0, 1]`
stays in `[0, 1)`. -/
theorem glslMix_mem {a b t : ℚ} (ha0 : 0 ≤ a) (ha1 : a < 1) (hb0 : 0 ≤ b)
    (hb1 : b < 1) (ht0 : 0 ≤ t) (ht1 : t ≤ 1) :
    0 ≤ glslMix a b t ∧ glslMix a b t < 1 := by
  unfold glslMix
  constructor
  · have h1t : 0 ≤ 1 - t := by linarith
    nlinarith
  · rcases le_total a b with h | h
    · nlinarith [mul_nonneg (sub_nonneg.mpr h) (sub_nonneg.mpr ht1)]
    · nlinarith [mul_nonneg (sub_nonneg.mpr h) ht0]

/-- Helper: `fastNoise` lands in `[0, 1)`. -/
theorem fastNoise_mem (p : ℚ × ℚ) : 0 ≤ fastNoise p ∧ fastNoise p < 1 := by
  unfold fastNoise
  have hfx := fade_mem (Int.fract_nonneg p.1) (le_of_lt (Int.fract_lt_one p.1))
  have hfy := fade_mem (Int.fract_nonneg p.2) (le_of_lt (Int.fract_lt_one p.2))
  have h1 := fastHash_mem ((⌊p.1⌋ : ℚ) + (⌊p.2⌋ : ℚ) * 157)
  have h2 := fastHash_mem ((⌊p.1⌋ : ℚ) + (⌊p.2⌋ : ℚ) * 157 + 1)
  have h3 := fastHash_mem ((⌊p.1⌋ : ℚ) + (⌊p.2⌋ : ℚ) * 157 + 157)
  have h4 := fastHash_mem ((⌊p.1⌋ : ℚ) + (⌊p.2⌋ : ℚ) * 157 + 158)
  have hm1 := glslMix_mem h1.1 h1.2 h2.1 h2.2 hfx.1 hfx.2
  have hm2 := glslMix_mem h3.1 h3.2 h4.1 h4.2 hfx.1 hfx.2
  exact glslMix_mem hm1.1 hm1.2 hm2.1 hm2.2 hfy.1 hfy.2

/-- C6.  The two-octave turbulence is, definitionally, the sum
`fastNoise(p + shift) * 0.5 + fastNoise(2 p - 0.5 shift) * 0.25` with each
octave noise in `[0, 1)`; it is deterministic in `(position, time)`; and it
is bounded in `[0, 0.75]`. -/
theorem C6_turbulence_bounded (p : ℚ × ℚ) (time : ℚ) :
    (∀ q : ℚ × ℚ, 0 ≤ fastNoise q ∧ fastNoise q < 1)
    ∧ turbulence p time =
        fastNoise (p.1 + (shift time).1, p.2 + (shift time).2) * (1/2)
        + fastNoise (p.1 * 2 - (shift time).1 * (1/2), p.2 * 2 - (shift time).2 * (1/2)) * (1/4)
    ∧ (∀ (p' : ℚ × ℚ) (time' : ℚ), p' = p → time' = time →
        turbulence p' time' = turbulence p time)
    ∧ 0 ≤ turbulence p time ∧ turbulence p time ≤ 3/4 := by
  refine ⟨fastNoise_mem, rfl, ?_, ?_, ?_⟩
  · intro p' t' hp ht
    rw [hp, ht]
  · have h1 := fastNoise_mem (p.1 + (shift time).1, p.2 + (shift time).2)
    have h2 := fastNoise_mem
      (p.1 * 2 - (shift time).1 * (1/2), p.2 * 2 - (shift time).2 * (1/2))
    unfold turbulence
    nlinarith [h1.1, h2.1]
  · have h1 := fastNoise_mem (p.1 + (shift time).1, p.2 + (shift time).2)
    have h2 := fastNoise_mem
      (p.1 * 2 - (shift time).1 * (1/2), p.2 * 2 - (shift time).2 * (1/2))
    unfold turbulence
    nlinarith [h1.2, h2.2]

/-- C6 (witness). -/
theorem C6_turbulence_bounded_witness :
    turbulence ((0 : ℚ), (0 : ℚ)) 0 = turbulence ((0 : ℚ), (0 : ℚ)) 0 :=
  (C6_turbulence_bounded ((0 : ℚ), (0 : ℚ)) 0).2.2.1 ((0 : ℚ), (0 : ℚ)) 0 rfl rfl

end Portfolio

namespace Portfolio

noncomputable section

/-! ## Vectors over ℝ

Models `THREE.Vector3` (and the GLSL `vec3` operations the shader uses) with
exact real coordinates.  `THREE.Vector3.normalize` divides by
`length() || 1`, so the zero vector normalises to itself. -/

/-- A three-component vector of reals. -/
structure Vec3 where
  x : ℝ
  y : ℝ
  z : ℝ

/-- Vector length, `sqrt(x² + y² + z²)`. -/
def Vec3.length (v : Vec3) : ℝ := Real.sqrt (v.x ^ 2 + v.y ^ 2 + v.z ^ 2)

/-- Componentwise difference, `a − b` (`subVectors` / GLSL `-`). -/
def Vec3.sub (a b : Vec3) : Vec3 := ⟨a.x - b.x, a.y - b.y, a.z - b.z⟩

/-- Scalar multiple (`multiplyScalar`). -/
def Vec3.scale (c : ℝ) (v : Vec3) : Vec3 := ⟨c * v.x, c * v.y, c * v.z⟩

/-- Source (`THREE.Vector3.normalize`): `divideScalar(length() || 1)` — the
zero vector stays put, any other vector is divided by its length. -/
def Vec3.normalize (v : Vec3) : Vec3 :=
  if v.length = 0 then v else Vec3.scale (1 / v.length) v

/-- Helper: lengths are nonnegative. -/
theorem Vec3.length_nonneg (v : Vec3) : 0 ≤ v.length := Real.sqrt_nonneg _

/-- Helper: a vector of length zero has all components zero. -/
theorem Vec3.eq_zero_of_length_eq_zero {v : Vec3} (h : v.length = 0) :
    v.x = 0 ∧ v.y = 0 ∧ v.z = 0 := by
  have hsum : v.x ^ 2 + v.y ^ 2 + v.z ^ 2 = 0 := by
    have h0 : (0 : ℝ) ≤ v.x ^ 2 + v.y ^ 2 + v.z ^ 2 := by positivity
    exact (Real.sqrt_eq_zero h0).mp h
  refine ⟨?_, ?_, ?_⟩ <;>
    [skip; skip; skip] <;>
    nlinarith [sq_nonneg v.x, sq_nonneg v.y, sq_nonneg v.z, sq_abs v.x]

/-! ## Vertex-stage bend displacement

Embeds the GLSL injected after `#include <begin_vertex>`:

`bool isInsideSphere = distance(gPos, sPos) < bendRadius;` — the full
three-dimensional distance from the vertex world position `gPos` to the
sphere position `sPos` — and, inside the radius, a horizontal displacement
`bendDir * (bendStrength * influence * heightFactor)` where `bendDir =
normalize(gPos.xz - sPos.xz)`, `influence = 1 - distance(gPos, sPos) /
bendRadius` and `heightFactor = position.y` (the local height of the vertex).
GLSL `normalize` of the zero vector is modelled as zero. -/

namespace BendShader

/-- Source GLSL: the `(transformed.x, transformed.z)` increment applied to a
vertex, as a pair `(Δx, Δz)`; zero when the vertex is outside the bend
radius. -/
def bendDisplacement (gPos sPos : Vec3) (bendRadius bendStrength heightY : ℝ) :
    ℝ × ℝ :=
  if (Vec3.sub gPos sPos).length < bendRadius then
    let dx := gPos.x - sPos.x
    let dz := gPos.z - sPos.z
    let len := Real.sqrt (dx ^ 2 + dz ^ 2)
    let bendDirX := if len = 0 then 0 else dx / len
    let bendDirZ := if len = 0 then 0 else dz / len
    let influence := 1 - (Vec3.sub gPos sPos).length / bendRadius
    let bend := bendStrength * influence * heightY
    (bendDirX * bend, bendDirZ * bend)
  else (0, 0)

/-- Claim C3 as stated: the same displacement but with `distance = |worldXZ −
actorXZ|`, the horizontal distance, used both for the radius test and the
falloff (written from the words of the spec). -/
def specBendDisplacementXZ (gPos sPos : Vec3) (bendRadius bendStrength heightY : ℝ) :
    ℝ × ℝ :=
  let dx := gPos.x - sPos.x
  let dz := gPos.z - sPos.z
  let d := Real.sqrt (dx ^ 2 + dz ^ 2)
  if d < bendRadius then
    let ux := if d = 0 then 0 else dx / d
    let uz := if d = 0 then 0 else dz / d
    let bendAmount := bendStrength * (1 - d / bendRadius) * heightY
    (ux * bendAmount, uz * bendAmount)
  else (0, 0)

/-- Amended spec for C3: identical to the claim except that `distance` is the
full three-dimensional distance `|world − actor|`, as the shader computes. -/
def specBendDisplacementAmended (gPos sPos : Vec3)
    (bendRadius bendStrength heightY : ℝ) : ℝ × ℝ :=
  let d := (Vec3.sub gPos sPos).length
  let dx := gPos.x - sPos.x
  let dz := gPos.z - sPos.z
  let hlen := Real.sqrt (dx ^ 2 + dz ^ 2)
  if d < bendRadius then
    let ux := if hlen = 0 then 0 else dx / hlen
    let uz := if hlen = 0 then 0 else dz / hlen
    let bendAmount := bendStrength * (1 - d / bendRadius) * heightY
    (ux * bendAmount, uz * bendAmount)
  else (0, 0)

end BendShader

open BendShader

/-- C3 (counterexample).  Take a vertex directly above and `1` unit beside
the actor: `gPos = (1, 5, 0)`, `sPos = (0, 0, 0)`, with the source uniforms
`bendRadius = 3.7`, `bendStrength = 0.8` and tip height `1`.  The horizontal
distance is `1 < 3.7`, so the claim demands a nonzero displacement, but the
shader tests the full 3-D distance `sqrt 26 ≥ 3.7` and displaces by exactly
`(0, 0)`. -/
theorem C3_counterexample :
    bendDisplacement ⟨1, 5, 0⟩ ⟨0, 0, 0⟩ (37/10) (4/5) 1 = (0, 0)
    ∧ specBendDisplacementXZ ⟨1, 5, 0⟩ ⟨0, 0, 0⟩ (37/10) (4/5) 1 ≠ (0, 0) := by
  constructor
  · have h26 : (37/10 : ℝ) ≤ Real.sqrt 26 :=
      (Real.le_sqrt (by norm_num) (by norm_num)).mpr (by norm_num)
    have hlen : (Vec3.sub ⟨1, 5, 0⟩ ⟨0, 0, 0⟩ : Vec3).length = Real.sqrt 26 := by
      show Real.sqrt (((1:ℝ) - 0) ^ 2 + ((5:ℝ) - 0) ^ 2 + ((0:ℝ) - 0) ^ 2) = Real.sqrt 26
      norm_num
    rw [bendDisplacement, if_neg]
    rw [hlen]
    exact not_lt.mpr h26
  · rw [specBendDisplacementXZ]
    have h1 : Real.sqrt (((⟨1, 5, 0⟩ : Vec3).x - (⟨0, 0, 0⟩ : Vec3).x) ^ 2 +
        ((⟨1, 5, 0⟩ : Vec3).z - (⟨0, 0, 0⟩ : Vec3).z) ^ 2) = 1 := by
      show Real.sqrt (((1:ℝ) - 0) ^ 2 + ((0:ℝ) - 0) ^ 2) = 1
      norm_num
    rw [h1]
    rw [if_pos (by norm_num)]
    simp only [ne_eq, Prod.mk.injEq, not_and]
    intro hx
    exfalso
    rw [if_neg (by norm_num : (1:ℝ) ≠ 0)] at hx
    norm_num at hx

/-- C3 (amended).  The bend displacement equals the spec formula with
`distance` taken as the full 3-D distance `|world − actor|` (the direction
stays horizontal); it is exactly `(0, 0)` whenever that distance is at least
`bendRadius`, and exactly `(0, 0)` whenever the vertex height weight is `0`,
for any distance. -/
theorem C3_bend (gPos sPos : Vec3) (bendRadius bendStrength heightY : ℝ) :
    bendDisplacement gPos sPos bendRadius bendStrength heightY =
      specBendDisplacementAmended gPos sPos bendRadius bendStrength heightY
    ∧ (bendRadius ≤ (Vec3.sub gPos sPos).length →
        bendDisplacement gPos sPos bendRadius bendStrength heightY = (0, 0))
    ∧ bendDisplacement gPos sPos bendRadius bendStrength 0 = (0, 0) := by
  refine ⟨?_, ?_, ?_⟩
  · by_cases hcond : (Vec3.sub gPos sPos).length < bendRadius <;>
      by_cases hl : Real.sqrt ((gPos.x - sPos.x) ^ 2 + (gPos.z - sPos.z) ^ 2) = 0 <;>
      simp [bendDisplacement, specBendDisplacementAmended, hcond, hl]
  · intro h
    rw [bendDisplacement, if_neg (not_lt.mpr h)]
  · by_cases hcond : (Vec3.sub gPos sPos).length < bendRadius <;>
      simp [bendDisplacement, hcond]

/-- C3 (witness). -/
theorem C3_bend_witness :
    bendDisplacement ⟨10, 0, 0⟩ ⟨0, 0, 0⟩ (37/10) (4/5) 1 = (0, 0) := by
  have hlen : (Vec3.sub ⟨10, 0, 0⟩ ⟨0, 0, 0⟩ : Vec3).length = 10 := by
    show Real.sqrt (((10:ℝ) - 0) ^ 2 + ((0:ℝ) - 0) ^ 2 + ((0:ℝ) - 0) ^ 2) = 10
    rw [show ((10:ℝ) - 0) ^ 2 + ((0:ℝ) - 0) ^ 2 + ((0:ℝ) - 0) ^ 2 = 10 ^ 2 by norm_num]
    exact Real.sqrt_sq (by norm_num)
  exact (C3_bend ⟨10, 0, 0⟩ ⟨0, 0, 0⟩ (37/10) (4/5) 1).2.1 (by rw [hlen]; norm_num)

/-! ## Ground-following actor (`MovingSphere`)

Embeds the `MovingSphere` component: its interaction-input handler
`handlePointerMove` and its per-frame `useFrame` update.  Source constants:
`SPHERE_MOVE_SPEED = 0.01`, `CAMERA_FOLLOW_SPEED = 0.01`, `CAMERA_DISTANCE =
5.0`, `CAMERA_HEIGHT_OFFSET = 1.2`, `SPHERE_HEIGHT_OFFSET = 1.2`.

The mutable refs become one state record.  The downward terrain raycast of a
frame is abstracted as `Option (Option ℝ)`: `none` when no base mesh has been
found yet, `some none` when the ray misses, `some (some h)` when it hits the
ground at height `h` — the two miss shapes run the same fallback
interpolation in the source.  A frame publication (`onSphereMove`) is
returned as a list of published positions. -/

namespace MovingSphere

/-- Source constant `SPHERE_MOVE_SPEED`. -/
def SPHERE_MOVE_SPEED : ℝ := 1/100

/-- Source constant `CAMERA_FOLLOW_SPEED`. -/
def CAMERA_FOLLOW_SPEED : ℝ := 1/100

/-- Source constant `CAMERA_DISTANCE`. -/
def CAMERA_DISTANCE : ℝ := 5

/-- Source constant `CAMERA_HEIGHT_OFFSET`. -/
def CAMERA_HEIGHT_OFFSET : ℝ := 6/5

/-- Source constant `SPHERE_HEIGHT_OFFSET`. -/
def SPHERE_HEIGHT_OFFSET : ℝ := 6/5

/-- Source (`THREE.MathUtils.lerp`): `(1 - t) * x + t * y`. -/
def lerp (x y t : ℝ) : ℝ := (1 - t) * x + t * y

/-- The mutable state of the component: `sphereRef.current.position`,
`sphereTargetRef.current`, `cameraOffsetRef.current` and
`camera.position`. -/
structure SphereState where
  position : Vec3
  sphereTarget : Vec3
  cameraOffset : Vec3
  cameraPos : Vec3

/-- Source `handlePointerMove` body, given the first intersection point:
sets `sphereTargetRef` x/z to the hit point and its y to `hitPoint.y +
SPHERE_HEIGHT_OFFSET`; recomputes `cameraOffsetRef` as
`normalize(camera.position - hitPoint)` with the y component then zeroed and
the result scaled by `CAMERA_DISTANCE`.  The handler deliberately does not
notify the parent (source comment: wait until the sphere actually moves in
`useFrame`), hence the empty publication list. -/
def handlePointerMove (s : SphereState) (hitPoint : Vec3) :
    SphereState × List Vec3 :=
  let target : Vec3 := ⟨hitPoint.x, hitPoint.y + SPHERE_HEIGHT_OFFSET, hitPoint.z⟩
  let dir := Vec3.normalize (Vec3.sub s.cameraPos hitPoint)
  let flat : Vec3 := ⟨dir.x, 0, dir.z⟩
  let offset := Vec3.scale CAMERA_DISTANCE flat
  ({ s with sphereTarget := target, cameraOffset := offset }, [])

/-- Source `handlePointerMove` including its early return: an event with no
intersections changes nothing. -/
def handlePointerMoveEvent (s : SphereState) (ev : Option Vec3) :
    SphereState × List Vec3 :=
  match ev with
  | none => (s, [])
  | some hitPoint => handlePointerMove s hitPoint

/-- Source `useFrame` body (once initialised): lerp x and z toward the
target; resolve y from the downward raycast at the next x/z (hit ⇒ ground
height plus `SPHERE_HEIGHT_OFFSET`; miss or no base mesh ⇒ lerp toward the
target y); commit the position; publish it via `onSphereMove`; then move the
camera toward `position + cameraOffset` with the y overridden to
`position.y + CAMERA_HEIGHT_OFFSET`. -/
def useFrameUpdate (s : SphereState) (raycast : Option (Option ℝ)) :
    SphereState × List Vec3 :=
  let nextX := lerp s.position.x s.sphereTarget.x SPHERE_MOVE_SPEED
  let nextZ := lerp s.position.z s.sphereTarget.z SPHERE_MOVE_SPEED
  let nextYHeight : ℝ :=
    match raycast with
    | some (some groundHeight) => groundHeight + SPHERE_HEIGHT_OFFSET
    | some none => lerp s.position.y s.sphereTarget.y SPHERE_MOVE_SPEED
    | none => lerp s.position.y s.sphereTarget.y SPHERE_MOVE_SPEED
  let newPos : Vec3 := ⟨nextX, nextYHeight, nextZ⟩
  let cameraTargetPosition : Vec3 :=
    ⟨newPos.x + s.cameraOffset.x, newPos.y + CAMERA_HEIGHT_OFFSET,
     newPos.z + s.cameraOffset.z⟩
  let newCameraPos : Vec3 :=
    ⟨s.cameraPos.x + (cameraTargetPosition.x - s.cameraPos.x) * CAMERA_FOLLOW_SPEED,
     s.cameraPos.y + (cameraTargetPosition.y - s.cameraPos.y) * CAMERA_FOLLOW_SPEED,
     s.cameraPos.z + (cameraTargetPosition.z - s.cameraPos.z) * CAMERA_FOLLOW_SPEED⟩
  ({ s with position := newPos, cameraPos := newCameraPos }, [newPos])

/-- Iterated frames with a fixed interaction target: `frameIter rc n s` runs
`useFrameUpdate` for `n` ticks, feeding each tick its raycast outcome from
the stream `rc`. -/
def frameIter (raycasts : ℕ → Option (Option ℝ)) : ℕ → SphereState → SphereState
  | 0, s => s
  | n + 1, s => frameIter raycasts n (useFrameUpdate s (raycasts n)).1

/-- Horizontal (XZ-plane) distance between two points. -/
def distXZ (a b : Vec3) : ℝ := Real.sqrt ((a.x - b.x) ^ 2 + (a.z - b.z) ^ 2)

end MovingSphere

end

end Portfolio

namespace Portfolio

noncomputable section

open MovingSphere

/-- C5.  On every per-frame update: a terrain hit at ground height `g`
commits `position.y = g + SPHERE_HEIGHT_OFFSET` (the clearance, `1.2`); a
raycast miss, or the base mesh not having been found yet, commits
`position.y = lerp(currentY, targetY, SPHERE_MOVE_SPEED)`.  The update is a
total function into `ℝ`, so the committed height always exists (the NaN /
undefined failure mode of the claim is unrepresentable: every branch
produces one of the two values above). -/
theorem C5_resolved_height (s : SphereState) (groundHeight : ℝ) :
    ((useFrameUpdate s (some (some groundHeight))).1).position.y =
      groundHeight + SPHERE_HEIGHT_OFFSET
    ∧ ((useFrameUpdate s (some none)).1).position.y =
      lerp s.position.y s.sphereTarget.y SPHERE_MOVE_SPEED
    ∧ ((useFrameUpdate s none).1).position.y =
      lerp s.position.y s.sphereTarget.y SPHERE_MOVE_SPEED :=
  ⟨rfl, rfl, rfl⟩

/-- C7.  Interaction-input handling publishes no actor position (its
publication list is empty, for a hit event and for an empty event alike) and
leaves the committed actor position untouched; the per-frame update is the
single writer: it publishes exactly one position per tick, namely the
committed position itself, whose height is already fully resolved (hit ⇒
ground plus clearance, otherwise the lerp fallback), so no consumer can
observe an unresolved target point as the actor position. -/
theorem C7_single_publication (s : SphereState) (ev : Option Vec3)
    (raycast : Option (Option ℝ)) :
    (handlePointerMoveEvent s ev).2 = []
    ∧ ((handlePointerMoveEvent s ev).1).position = s.position
    ∧ (useFrameUpdate s raycast).2 = [((useFrameUpdate s raycast).1).position]
    ∧ ((useFrameUpdate s raycast).1).position.y =
        (match raycast with
         | some (some g) => g + SPHERE_HEIGHT_OFFSET
         | some none => lerp s.position.y s.sphereTarget.y SPHERE_MOVE_SPEED
         | none => lerp s.position.y s.sphereTarget.y SPHERE_MOVE_SPEED) := by
  refine ⟨?_, ?_, rfl, ?_⟩
  · cases ev <;> rfl
  · cases ev <;> rfl
  · cases raycast with
    | none => rfl
    | some hit => cases hit <;> rfl

/-- Helper: a frame update never changes the movement target. -/
theorem useFrameUpdate_sphereTarget (s : SphereState) (raycast : Option (Option ℝ)) :
    ((useFrameUpdate s raycast).1).sphereTarget = s.sphereTarget := rfl

/-- Helper: the committed x is the lerp toward the target x. -/
theorem useFrameUpdate_position_x (s : SphereState) (raycast : Option (Option ℝ)) :
    ((useFrameUpdate s raycast).1).position.x =
      lerp s.position.x s.sphereTarget.x SPHERE_MOVE_SPEED := rfl

/-- Helper: the committed z is the lerp toward the target z. -/
theorem useFrameUpdate_position_z (s : SphereState) (raycast : Option (Option ℝ)) :
    ((useFrameUpdate s raycast).1).position.z =
      lerp s.position.z s.sphereTarget.z SPHERE_MOVE_SPEED := rfl

/-- Helper: iterated frames never change the movement target. -/
theorem frameIter_sphereTarget (rc : ℕ → Option (Option ℝ)) :
    ∀ (n : ℕ) (s : SphereState), (frameIter rc n s).sphereTarget = s.sphereTarget := by
  intro n
  induction n with
  | zero => intro s; rfl
  | succ n ih =>
      intro s
      rw [frameIter, ih, useFrameUpdate_sphereTarget]

/-- Helper: after `n` ticks the x gap to the (fixed) target has shrunk by
the factor `(1 - SPHERE_MOVE_SPEED)^n`. -/
theorem frameIter_delta_x (rc : ℕ → Option (Option ℝ)) :
    ∀ (n : ℕ) (s : SphereState),
      s.sphereTarget.x - (frameIter rc n s).position.x =
        (1 - SPHERE_MOVE_SPEED) ^ n * (s.sphereTarget.x - s.position.x) := by
  intro n
  induction n with
  | zero => intro s; rw [frameIter]; simp
  | succ n ih =>
      intro s
      rw [frameIter]
      have h := ih (useFrameUpdate s (rc n)).1
      rw [useFrameUpdate_sphereTarget, useFrameUpdate_position_x] at h
      rw [h, lerp]
      ring

/-- Helper: the z analogue of `frameIter_delta_x`. -/
theorem frameIter_delta_z (rc : ℕ → Option (Option ℝ)) :
    ∀ (n : ℕ) (s : SphereState),
      s.sphereTarget.z - (frameIter rc n s).position.z =
        (1 - SPHERE_MOVE_SPEED) ^ n * (s.sphereTarget.z - s.position.z) := by
  intro n
  induction n with
  | zero => intro s; rw [frameIter]; simp
  | succ n ih =>
      intro s
      rw [frameIter]
      have h := ih (useFrameUpdate s (rc n)).1
      rw [useFrameUpdate_sphereTarget, useFrameUpdate_position_z] at h
      rw [h, lerp]
      ring

/-- C9.  With a fixed interaction target (no pointer event during the run,
arbitrary raycast outcomes): each tick commits
`nextXZ = lerp(currentXZ, targetXZ, SPHERE_MOVE_SPEED)`, so the XZ
displacement vector to the target shrinks by the factor
`1 - SPHERE_MOVE_SPEED` per tick, and after `N` ticks the XZ distance to the
target is exactly `(1 - SPHERE_MOVE_SPEED)^N` times the initial distance. -/
theorem C9_geometric_decay (rc : ℕ → Option (Option ℝ)) (s : SphereState) (N : ℕ) :
    (frameIter rc N s).sphereTarget = s.sphereTarget
    ∧ s.sphereTarget.x - ((useFrameUpdate s (rc 0)).1).position.x =
        (1 - SPHERE_MOVE_SPEED) * (s.sphereTarget.x - s.position.x)
    ∧ s.sphereTarget.z - ((useFrameUpdate s (rc 0)).1).position.z =
        (1 - SPHERE_MOVE_SPEED) * (s.sphereTarget.z - s.position.z)
    ∧ distXZ (frameIter rc N s).position s.sphereTarget =
        (1 - SPHERE_MOVE_SPEED) ^ N * distXZ s.position s.sphereTarget := by
  have hms : (0 : ℝ) ≤ 1 - SPHERE_MOVE_SPEED := by norm_num [SPHERE_MOVE_SPEED]
  refine ⟨frameIter_sphereTarget rc N s, ?_, ?_, ?_⟩
  · rw [useFrameUpdate_position_x, lerp]; ring
  · rw [useFrameUpdate_position_z, lerp]; ring
  · have hx := frameIter_delta_x rc N s
    have hz := frameIter_delta_z rc N s
    have ex : (frameIter rc N s).position.x =
        s.sphereTarget.x - (1 - SPHERE_MOVE_SPEED) ^ N * (s.sphereTarget.x - s.position.x) := by
      linarith
    have ez : (frameIter rc N s).position.z =
        s.sphereTarget.z - (1 - SPHERE_MOVE_SPEED) ^ N * (s.sphereTarget.z - s.position.z) := by
      linarith
    rw [distXZ, distXZ, ex, ez]
    rw [show (s.sphereTarget.x - (1 - SPHERE_MOVE_SPEED) ^ N *
          (s.sphereTarget.x - s.position.x) - s.sphereTarget.x) ^ 2 +
        (s.sphereTarget.z - (1 - SPHERE_MOVE_SPEED) ^ N *
          (s.sphereTarget.z - s.position.z) - s.sphereTarget.z) ^ 2 =
        ((1 - SPHERE_MOVE_SPEED) ^ N) ^ 2 *
          ((s.position.x - s.sphereTarget.x) ^ 2 +
           (s.position.z - s.sphereTarget.z) ^ 2) by ring]
    rw [Real.sqrt_mul (sq_nonneg _), Real.sqrt_sq (pow_nonneg hms N)]

/-- Helper: the recomputed camera offset, componentwise, when the
camera-to-hit vector is nonzero. -/
theorem handlePointerMove_cameraOffset (s : SphereState) (hitPoint : Vec3)
    (hL : (Vec3.sub s.cameraPos hitPoint).length ≠ 0) :
    ((handlePointerMove s hitPoint).1).cameraOffset =
      ⟨CAMERA_DISTANCE * (1 / (Vec3.sub s.cameraPos hitPoint).length *
          (Vec3.sub s.cameraPos hitPoint).x),
       CAMERA_DISTANCE * 0,
       CAMERA_DISTANCE * (1 / (Vec3.sub s.cameraPos hitPoint).length *
          (Vec3.sub s.cameraPos hitPoint).z)⟩ := by
  show Vec3.scale CAMERA_DISTANCE
      ⟨(Vec3.normalize (Vec3.sub s.cameraPos hitPoint)).x, 0,
       (Vec3.normalize (Vec3.sub s.cameraPos hitPoint)).z⟩ = _
  rw [Vec3.normalize, if_neg hL]
  rfl

/-- Helper: the length of the recomputed camera offset, when the
camera-to-hit vector is nonzero. -/
theorem handlePointerMove_offset_length (s : SphereState) (hitPoint : Vec3)
    (hL : (Vec3.sub s.cameraPos hitPoint).length ≠ 0) :
    (((handlePointerMove s hitPoint).1).cameraOffset).length =
      CAMERA_DISTANCE / (Vec3.sub s.cameraPos hitPoint).length *
        Real.sqrt ((Vec3.sub s.cameraPos hitPoint).x ^ 2 +
          (Vec3.sub s.cameraPos hitPoint).z ^ 2) := by
  have hLpos : 0 < (Vec3.sub s.cameraPos hitPoint).length :=
    lt_of_le_of_ne (Vec3.length_nonneg _) (Ne.symm hL)
  rw [handlePointerMove_cameraOffset s hitPoint hL, Vec3.length]
  rw [show (CAMERA_DISTANCE * (1 / (Vec3.sub s.cameraPos hitPoint).length *
        (Vec3.sub s.cameraPos hitPoint).x)) ^ 2 +
      (CAMERA_DISTANCE * 0) ^ 2 +
      (CAMERA_DISTANCE * (1 / (Vec3.sub s.cameraPos hitPoint).length *
        (Vec3.sub s.cameraPos hitPoint).z)) ^ 2 =
      (CAMERA_DISTANCE / (Vec3.sub s.cameraPos hitPoint).length) ^ 2 *
        ((Vec3.sub s.cameraPos hitPoint).x ^ 2 +
         (Vec3.sub s.cameraPos hitPoint).z ^ 2) by ring]
  rw [Real.sqrt_mul (sq_nonneg _)]
  rw [Real.sqrt_sq (div_nonneg (by norm_num [CAMERA_DISTANCE])
    (Vec3.length_nonneg _))]

/-- C10 (counterexample).  Let the camera sit at `(3, 4, 0)` and the hit
point at the origin: the camera-to-hit vector is normalised first
(`(3/5, 4/5, 0)`), then projected to the horizontal plane (`(3/5, 0, 0)`),
then scaled by `CAMERA_DISTANCE = 5`, giving an offset `(3, 0, 0)` of
magnitude `3 ≠ 5`: the claim that the recomputed offset always has magnitude
`followDistance` is false. -/
theorem C10_counterexample :
    (((handlePointerMove ⟨⟨0, 0, 0⟩, ⟨0, 0, 0⟩, ⟨0, 0, 0⟩, ⟨3, 4, 0⟩⟩
        ⟨0, 0, 0⟩).1).cameraOffset).length ≠ CAMERA_DISTANCE := by
  have hsub : (Vec3.sub ⟨3, 4, 0⟩ ⟨0, 0, 0⟩ : Vec3) = ⟨3, 4, 0⟩ := by
    show (⟨(3:ℝ) - 0, (4:ℝ) - 0, (0:ℝ) - 0⟩ : Vec3) = ⟨3, 4, 0⟩
    norm_num
  have hL : (Vec3.sub (⟨3, 4, 0⟩ : Vec3) ⟨0, 0, 0⟩).length = 5 := by
    rw [hsub]
    show Real.sqrt ((3:ℝ) ^ 2 + (4:ℝ) ^ 2 + (0:ℝ) ^ 2) = 5
    rw [show (3:ℝ) ^ 2 + (4:ℝ) ^ 2 + (0:ℝ) ^ 2 = 5 ^ 2 by norm_num]
    exact Real.sqrt_sq (by norm_num)
  rw [handlePointerMove_offset_length _ _ (by rw [hL]; norm_num)]
  rw [hL, hsub]
  show (CAMERA_DISTANCE / 5 * Real.sqrt ((3:ℝ) ^ 2 + (0:ℝ) ^ 2)) ≠ CAMERA_DISTANCE
  rw [show (3:ℝ) ^ 2 + (0:ℝ) ^ 2 = 3 ^ 2 by norm_num, Real.sqrt_sq (by norm_num)]
  norm_num [CAMERA_DISTANCE]

/-- C10 (amended).  On interaction input the recomputed camera offset always
has a zero y component and is `CAMERA_DISTANCE` times the horizontal
projection of the unit camera-to-hit vector, so its magnitude is at most
`CAMERA_DISTANCE` and equals `CAMERA_DISTANCE` exactly when the
camera-to-hit vector is nonzero and horizontal; per-frame updates never
recompute the offset; and the handler also sets the movement target to the
hit point with the clearance added to its y. -/
theorem C10_camera_offset (s : SphereState) (hitPoint : Vec3)
    (raycast : Option (Option ℝ)) :
    (((handlePointerMove s hitPoint).1).cameraOffset).y = 0
    ∧ (((handlePointerMove s hitPoint).1).cameraOffset).length ≤ CAMERA_DISTANCE
    ∧ ((Vec3.sub s.cameraPos hitPoint).length ≠ 0 →
        (Vec3.sub s.cameraPos hitPoint).y = 0 →
        (((handlePointerMove s hitPoint).1).cameraOffset).length = CAMERA_DISTANCE)
    ∧ ((useFrameUpdate s raycast).1).cameraOffset = s.cameraOffset
    ∧ ((handlePointerMove s hitPoint).1).sphereTarget =
        ⟨hitPoint.x, hitPoint.y + SPHERE_HEIGHT_OFFSET, hitPoint.z⟩ := by
  have hCD : (0:ℝ) ≤ CAMERA_DISTANCE := by norm_num [CAMERA_DISTANCE]
  refine ⟨?_, ?_, ?_, rfl, rfl⟩
  · show CAMERA_DISTANCE * 0 = 0
    exact mul_zero _
  · by_cases hL : (Vec3.sub s.cameraPos hitPoint).length = 0
    · obtain ⟨hx, hy, hz⟩ := Vec3.eq_zero_of_length_eq_zero hL
      have hoff : ((handlePointerMove s hitPoint).1).cameraOffset =
          ⟨CAMERA_DISTANCE * 0, CAMERA_DISTANCE * 0, CAMERA_DISTANCE * 0⟩ := by
        show Vec3.scale CAMERA_DISTANCE
            ⟨(Vec3.normalize (Vec3.sub s.cameraPos hitPoint)).x, 0,
             (Vec3.normalize (Vec3.sub s.cameraPos hitPoint)).z⟩ = _
        rw [Vec3.normalize, if_pos hL]
        rw [Vec3.scale]
        rw [hx, hz]
      rw [hoff, Vec3.length]
      rw [show (CAMERA_DISTANCE * 0) ^ 2 + (CAMERA_DISTANCE * 0) ^ 2 +
          (CAMERA_DISTANCE * 0) ^ 2 = 0 by ring]
      rw [Real.sqrt_zero]
      exact hCD
    · have hLpos : 0 < (Vec3.sub s.cameraPos hitPoint).length :=
        lt_of_le_of_ne (Vec3.length_nonneg _) (Ne.symm hL)
      rw [handlePointerMove_offset_length s hitPoint hL]
      have hsq : ((Vec3.sub s.cameraPos hitPoint).length) ^ 2 =
          (Vec3.sub s.cameraPos hitPoint).x ^ 2 +
          (Vec3.sub s.cameraPos hitPoint).y ^ 2 +
          (Vec3.sub s.cameraPos hitPoint).z ^ 2 :=
        Real.sq_sqrt (by positivity)
      have hA : Real.sqrt ((Vec3.sub s.cameraPos hitPoint).x ^ 2 +
          (Vec3.sub s.cameraPos hitPoint).z ^ 2) ≤
          (Vec3.sub s.cameraPos hitPoint).length := by
        have h1 : (Vec3.sub s.cameraPos hitPoint).x ^ 2 +
            (Vec3.sub s.cameraPos hitPoint).z ^ 2 ≤
            ((Vec3.sub s.cameraPos hitPoint).length) ^ 2 := by
          rw [hsq]
          nlinarith [sq_nonneg (Vec3.sub s.cameraPos hitPoint).y]
        calc Real.sqrt ((Vec3.sub s.cameraPos hitPoint).x ^ 2 +
              (Vec3.sub s.cameraPos hitPoint).z ^ 2)
            ≤ Real.sqrt (((Vec3.sub s.cameraPos hitPoint).length) ^ 2) :=
              Real.sqrt_le_sqrt h1
          _ = (Vec3.sub s.cameraPos hitPoint).length :=
              Real.sqrt_sq (Vec3.length_nonneg _)
      calc CAMERA_DISTANCE / (Vec3.sub s.cameraPos hitPoint).length *
            Real.sqrt ((Vec3.sub s.cameraPos hitPoint).x ^ 2 +
              (Vec3.sub s.cameraPos hitPoint).z ^ 2)
          ≤ CAMERA_DISTANCE / (Vec3.sub s.cameraPos hitPoint).length *
            (Vec3.sub s.cameraPos hitPoint).length :=
            mul_le_mul_of_nonneg_left hA (by positivity)
        _ = CAMERA_DISTANCE := div_mul_cancel₀ _ hL
  · intro hL hy
    rw [handlePointerMove_offset_length s hitPoint hL]
    have hsq : ((Vec3.sub s.cameraPos hitPoint).length) ^ 2 =
        (Vec3.sub s.cameraPos hitPoint).x ^ 2 +
        (Vec3.sub s.cameraPos hitPoint).y ^ 2 +
        (Vec3.sub s.cameraPos hitPoint).z ^ 2 :=
      Real.sq_sqrt (by positivity)
    have hA : (Vec3.sub s.cameraPos hitPoint).x ^ 2 +
        (Vec3.sub s.cameraPos hitPoint).z ^ 2 =
        ((Vec3.sub s.cameraPos hitPoint).length) ^ 2 := by
      rw [hsq, hy]
      ring
    rw [hA, Real.sqrt_sq (Vec3.length_nonneg _)]
    exact div_mul_cancel₀ _ hL

/-- C10 (witness). -/
theorem C10_camera_offset_witness :
    (((handlePointerMove ⟨⟨0, 0, 0⟩, ⟨0, 0, 0⟩, ⟨0, 0, 0⟩, ⟨3, 0, 4⟩⟩
        ⟨0, 0, 0⟩).1).cameraOffset).length = CAMERA_DISTANCE := by
  have hsub : (Vec3.sub ⟨3, 0, 4⟩ ⟨0, 0, 0⟩ : Vec3) = ⟨3, 0, 4⟩ := by
    show (⟨(3:ℝ) - 0, (0:ℝ) - 0, (4:ℝ) - 0⟩ : Vec3) = ⟨3, 0, 4⟩
    norm_num
  have hL : (Vec3.sub (⟨3, 0, 4⟩ : Vec3) ⟨0, 0, 0⟩).length = 5 := by
    rw [hsub]
    show Real.sqrt ((3:ℝ) ^ 2 + (0:ℝ) ^ 2 + (4:ℝ) ^ 2) = 5
    rw [show (3:ℝ) ^ 2 + (0:ℝ) ^ 2 + (4:ℝ) ^ 2 = 5 ^ 2 by norm_num]
    exact Real.sqrt_sq (by norm_num)
  exact (C10_camera_offset ⟨⟨0, 0, 0⟩, ⟨0, 0, 0⟩, ⟨0, 0, 0⟩, ⟨3, 0, 4⟩⟩
      ⟨0, 0, 0⟩ none).2.2.1 (by rw [hL]; norm_num) (by rw [hsub])

end

end Portfolio
